import Mathlib

/-!
Website scraping server (`src/server.js`)

A shallow embedding of the scraping helper `scrapeData`, of the CSV export
handler and of the route table of `src/server.js`, with the properties the
specification states about them.

Conventions of the embedding

* A JavaScript value that is a string or `undefined` is an `Option String`
  (`none` is `undefined`).
* The libraries the server calls (axios, cheerio, puppeteer, fs, express) are
  not part of the repository.  What they answer during one pass of the retry
  loop is an input of the model (`AttemptEnv`); what they compute from their
  arguments (`.attr`, `.text`, `Array.prototype.join`, base64) follows their
  documented behaviour.
* Every call to a collaborator is recorded in a trace of `Event`s, so that the
  number of attempts and of browser launches and closes can be counted.
-/

namespace Scraper

/-! ## JavaScript strings and `||` -/

/-- JavaScript truthiness of a string-or-undefined value: `undefined` and the
empty string are falsy, every other string is truthy. -/
def truthy : Option String → Bool
  | none => false
  | some s => s != ""

/-- The JavaScript expression `a || b` on string-or-undefined values. -/
def jsOr (a b : Option String) : Option String :=
  if truthy a then a else b

/-! ## cheerio -/

/-- An element of the parsed markup: its tag name, its attributes and its text
content (the text of its descendants, as cheerio computes it). -/
structure Element where
  name : String
  attribs : List (String × String)
  textContent : String
  deriving DecidableEq, Repr

/-- A loaded document, the `$` returned by `cheerio.load(data)`: it sends a
selector to the matching elements in document order. -/
abbrev Cheerio := String → List Element

/-- The cheerio call `selection.attr(name)`: the attribute of the FIRST element
of the selection, `undefined` when the selection is empty or that element does
not carry the attribute. -/
def attr (selection : List Element) (name : String) : Option String :=
  match selection with
  | [] => none
  | e :: _ => e.attribs.lookup name

/-- The cheerio call `selection.text()`: the combined text contents of EACH
element of the selection; the empty string for an empty selection. -/
def text (selection : List Element) : String :=
  String.join (selection.map Element.textContent)

/-! ## The record -/

/-- The object `scrapeData` returns (and the shape of `companySchema`). -/
structure CompanyRecord where
  name : Option String
  description : Option String
  logo : Option String
  facebook : Option String
  linkedin : Option String
  twitter : Option String
  instagram : Option String
  address : Option String
  phone : Option String
  email : Option String
  screenshot : Option String
  deriving DecidableEq, Repr

/-- The ten constants of the "Extract details" block of `scrapeData`
(lines 63-72), given the loaded document; `screenshot` is not set here. -/
def extractDetails (q : Cheerio) : CompanyRecord where
  name := jsOr (attr (q "meta[property=\"og:site_name\"]") "content") (some (text (q "title")))
  description := attr (q "meta[name=\"description\"]") "content"
  logo := jsOr (attr (q "meta[property=\"og:image\"]") "content") (attr (q "link[rel=\"icon\"]") "href")
  facebook := attr (q "a[href*=\"facebook.com\"]") "href"
  linkedin := attr (q "a[href*=\"linkedin.com\"]") "href"
  twitter := attr (q "a[href*=\"twitter.com\"]") "href"
  instagram := attr (q "a[href*=\"instagram.com\"]") "href"
  address := some (text (q "address"))
  phone := some (text (q "a[href^=\"tel:\"]"))
  email := some (text (q "a[href^=\"mailto:\"]"))
  screenshot := none

/-! ## base64 (`fs.readFileSync(path, { encoding: 'base64' })`) -/

/-- The base64 alphabet of RFC 4648: the character of a 6-bit value. -/
def b64char (n : Nat) : Char :=
  if n < 26 then Char.ofNat (65 + n)
  else if n < 52 then Char.ofNat (97 + (n - 26))
  else if n < 62 then Char.ofNat (48 + (n - 52))
  else if n = 62 then '+'
  else '/'

/-- Base64 with padding, as Node produces it for a buffer of bytes. -/
def base64Chars : List Nat → List Char
  | [] => []
  | [a] => [b64char (a / 4), b64char (a % 4 * 16), '=', '=']
  | [a, b] => [b64char (a / 4), b64char (a % 4 * 16 + b / 16), b64char (b % 16 * 4), '=']
  | a :: b :: c :: rest =>
    b64char (a / 4) :: b64char (a % 4 * 16 + b / 16) :: b64char (b % 16 * 4 + c / 64)
      :: b64char (c % 64) :: base64Chars rest

/-- The string `buffer.toString('base64')`. -/
def base64Encode (bytes : List Nat) : String :=
  String.mk (base64Chars bytes)

/-- The 6-bit value of a base64 character, `none` outside the alphabet. -/
def b64index (c : Char) : Option Nat :=
  let n := c.toNat
  if 65 ≤ n ∧ n ≤ 90 then some (n - 65)
  else if 97 ≤ n ∧ n ≤ 122 then some (n - 97 + 26)
  else if 48 ≤ n ∧ n ≤ 57 then some (n - 48 + 52)
  else if n = 43 then some 62
  else if n = 47 then some 63
  else none

/-- Strict base64 decoding (RFC 4648, padding required): the inverse the
round-trip property of the specification decodes with. -/
def base64Decode : List Char → Option (List Nat)
  | [] => some []
  | c1 :: c2 :: c3 :: c4 :: rest =>
    if c3 = '=' ∧ c4 = '=' ∧ rest = [] then
      match b64index c1, b64index c2 with
      | some i1, some i2 => some [i1 * 4 + i2 / 16]
      | _, _ => none
    else if c4 = '=' ∧ rest = [] then
      match b64index c1, b64index c2, b64index c3 with
      | some i1, some i2, some i3 => some [i1 * 4 + i2 / 16, i2 % 16 * 16 + i3 / 4]
      | _, _, _ => none
    else
      match b64index c1, b64index c2, b64index c3, b64index c4, base64Decode rest with
      | some i1, some i2, some i3, some i4, some tl =>
        some ((i1 * 4 + i2 / 16) :: (i2 % 16 * 16 + i3 / 4) :: (i3 % 4 * 64 + i4) :: tl)
      | _, _, _, _, _ => none
  | _ => none

/-- The media-type header of the data URI built on line 100. -/
def dataUriHeader : String := "data:image/png;base64,"

/-- Reading a data URI back: remove the header, base64-decode the remainder. -/
def decodeDataUri (s : String) : Option (List Nat) :=
  if dataUriHeader.data.isPrefixOf s.data then
    base64Decode (s.data.drop dataUriHeader.data.length)
  else none

/-! ## `scrapeData` -/

/-- The calls `scrapeData` makes to its collaborators, and the two lines its
`catch` block writes with `console.error`: the error of the failed pass
(line 104, with the attempt number and `error.message`) and the line
"Max retries reached. Failing..." (line 107). The `console.log` lines are not
recorded. -/
inductive Event where
  | axiosGet
  | cheerioLoad
  | launch
  | newPage
  | goto
  | screenshot
  | close
  | readFileSync
  | consoleError (attempt : Nat) (message : String)
  | maxRetriesReached
  deriving DecidableEq, Repr

/-- What the collaborators answer during one pass of the loop body: each call
either returns or throws an error with a message. `screenshot` returns the
image bytes puppeteer writes to `screenshotPath`; `readFileSync` reads that
file back. -/
structure AttemptEnv where
  axiosGet : String → Except String String
  cheerioLoad : String → Except String Cheerio
  launch : Except String Unit
  newPage : Except String Unit
  goto : String → Except String Unit
  screenshot : Except String (List Nat)
  close : Except String Unit
  readFileSync : Except String Unit

/-- The `try` block of `scrapeData` (lines 46-101): the trace of the calls made
and either the returned record or the message of the error thrown. A throwing
call transfers control to the `catch` block; the statements after it are not
run. -/
def tryBlock (w : AttemptEnv) (url : String) : List Event × Except String CompanyRecord :=
  match w.axiosGet url with
  | .error m => ([.axiosGet], .error m)
  | .ok data =>
  match w.cheerioLoad data with
  | .error m => ([.axiosGet, .cheerioLoad], .error m)
  | .ok q =>
  let details := extractDetails q
  match w.launch with
  | .error m => ([.axiosGet, .cheerioLoad, .launch], .error m)
  | .ok () =>
  match w.newPage with
  | .error m => ([.axiosGet, .cheerioLoad, .launch, .newPage], .error m)
  | .ok () =>
  match w.goto url with
  | .error m => ([.axiosGet, .cheerioLoad, .launch, .newPage, .goto], .error m)
  | .ok () =>
  match w.screenshot with
  | .error m => ([.axiosGet, .cheerioLoad, .launch, .newPage, .goto, .screenshot], .error m)
  | .ok bytes =>
  match w.close with
  | .error m =>
    ([.axiosGet, .cheerioLoad, .launch, .newPage, .goto, .screenshot, .close], .error m)
  | .ok () =>
  match w.readFileSync with
  | .error m =>
    ([.axiosGet, .cheerioLoad, .launch, .newPage, .goto, .screenshot, .close, .readFileSync],
      .error m)
  | .ok () =>
    let screenshot := base64Encode bytes
    ([.axiosGet, .cheerioLoad, .launch, .newPage, .goto, .screenshot, .close, .readFileSync],
      .ok { details with screenshot := some (dataUriHeader ++ screenshot) })

/-- How a call of `scrapeData` ends: it returns a record, it throws an error
with a message, or control leaves the `while` loop and the function returns
`undefined`. -/
inductive Completion where
  | returned (record : CompanyRecord)
  | thrown (message : String)
  | undefined
  deriving DecidableEq, Repr

/-- The constant `maxRetries` of line 42. -/
def maxRetries : Nat := 3

/-- The `while (attempt < maxRetries)` loop of `scrapeData`, entered with the
counter at `attempt`. `world i` is what the collaborators answer during the
pass that starts with the counter at `i`. -/
def scrapeLoop (world : Nat → AttemptEnv) (url : String) (attempt : Nat) :
    List Event × Completion :=
  if attempt < maxRetries then
    match tryBlock (world attempt) url with
    | (evs, .ok record) => (evs, .returned record)
    | (evs, .error message) =>
      let attempt := attempt + 1
      let evs := evs ++ [Event.consoleError attempt message]
      if attempt ≥ maxRetries then
        (evs ++ [Event.maxRetriesReached], .thrown "Failed to scrape the website")
      else
        let rest := scrapeLoop world url attempt
        (evs ++ rest.1, rest.2)
  else ([], .undefined)
termination_by maxRetries - attempt
decreasing_by omega

/-- The helper `scrapeData(url)`: the loop entered with `attempt = 0`. -/
def scrapeData (world : Nat → AttemptEnv) (url : String) : List Event × Completion :=
  scrapeLoop world url 0

/-- The number of passes of the loop body in a trace: each pass starts with
one `axios.get`. -/
def attempts (trace : List Event) : Nat := trace.count Event.axiosGet

/-- The stages of one attempt all succeed: fetch, parse, browser render
(launch, new page, navigation, capture, close) and screenshot read. -/
def allSucceed (w : AttemptEnv) (url : String) : Bool :=
  match w.axiosGet url with
  | .error _ => false
  | .ok data =>
    (w.cheerioLoad data).isOk && w.launch.isOk && w.newPage.isOk && (w.goto url).isOk
      && w.screenshot.isOk && w.close.isOk && w.readFileSync.isOk

/-! ## Sample passes -/

/-- A page with a title and a description and nothing else. -/
def acmePage : Cheerio := fun sel =>
  if sel = "title" then [⟨"title", [], "Acme Corp"⟩]
  else if sel = "meta[name=\"description\"]" then
    [⟨"meta", [("name", "description"), ("content", "Widgets")], ""⟩]
  else []

/-- A pass in which every collaborator answers. -/
def okEnv : AttemptEnv where
  axiosGet := fun _ => .ok "<html></html>"
  cheerioLoad := fun _ => .ok acmePage
  launch := .ok ()
  newPage := .ok ()
  goto := fun _ => .ok ()
  screenshot := .ok [137, 80, 78, 71]
  close := .ok ()
  readFileSync := .ok ()

/-- A pass whose fetch is answered with HTTP 404 (axios throws). -/
def notFoundEnv : AttemptEnv :=
  { okEnv with axiosGet := fun _ => .error "Request failed with status code 404" }

/-- A pass whose navigation throws after the browser was launched. -/
def navTimeoutEnv : AttemptEnv :=
  { okEnv with goto := fun _ => .error "Navigation timeout of 30000 ms exceeded" }

/-- A run whose first pass is answered with HTTP 404 and whose later passes
succeed. -/
def secondTryWorld : Nat → AttemptEnv := fun i =>
  if i = 0 then notFoundEnv else okEnv

/-- A page on which every extraction rule finds something: site-name and
preview-image metadata next to a title and an icon link, a description, one
link per social platform, an address, a telephone anchor and a mail anchor. -/
def fullPage : Cheerio := fun sel =>
  if sel = "meta[property=\"og:site_name\"]" then
    [⟨"meta", [("property", "og:site_name"), ("content", "Acme")], ""⟩]
  else if sel = "title" then [⟨"title", [], "Acme Corp"⟩]
  else if sel = "meta[name=\"description\"]" then
    [⟨"meta", [("name", "description"), ("content", "Anvils and more")], ""⟩]
  else if sel = "meta[property=\"og:image\"]" then
    [⟨"meta", [("property", "og:image"), ("content", "https://acme.test/og.png")], ""⟩]
  else if sel = "link[rel=\"icon\"]" then
    [⟨"link", [("rel", "icon"), ("href", "/favicon.ico")], ""⟩]
  else if sel = "a[href*=\"facebook.com\"]" then
    [⟨"a", [("href", "https://facebook.com/acme")], "Facebook"⟩]
  else if sel = "a[href*=\"linkedin.com\"]" then
    [⟨"a", [("href", "https://linkedin.com/company/acme")], "LinkedIn"⟩]
  else if sel = "a[href*=\"twitter.com\"]" then
    [⟨"a", [("href", "https://twitter.com/acme")], "Twitter"⟩]
  else if sel = "a[href*=\"instagram.com\"]" then
    [⟨"a", [("href", "https://instagram.com/acme")], "Instagram"⟩]
  else if sel = "address" then [⟨"address", [], "1 Main St"⟩]
  else if sel = "a[href^=\"tel:\"]" then [⟨"a", [("href", "tel:111")], "111"⟩]
  else if sel = "a[href^=\"mailto:\"]" then
    [⟨"a", [("href", "mailto:a@acme.test")], "a@acme.test"⟩]
  else []

/-- A pass in which every collaborator answers, the markup is `fullPage` and
the capture is the three bytes 77 97 110. -/
def fullEnv : AttemptEnv :=
  { okEnv with
    axiosGet := fun _ => .ok "<html><head><title>Acme Corp</title></head></html>"
    cheerioLoad := fun _ => .ok fullPage
    screenshot := .ok [77, 97, 110] }

/-- A run whose first pass is answered with HTTP 404, whose second pass
succeeds on `fullPage` and whose third pass would succeed on `acmePage`. -/
def retryWorld : Nat → AttemptEnv := fun i =>
  if i = 0 then notFoundEnv else if i = 1 then fullEnv else okEnv

/-! ## Sample pages -/

/-- Scenario A: `<meta property="og:site_name" content="Acme">` together with
`<title>Acme Corp</title>`. -/
def scenarioAPage : Cheerio := fun sel =>
  if sel = "meta[property=\"og:site_name\"]" then
    [⟨"meta", [("property", "og:site_name"), ("content", "Acme")], ""⟩]
  else if sel = "title" then [⟨"title", [], "Acme Corp"⟩]
  else []

/-- The page `<meta property="og:site_name" content="">` with
`<title>Acme Corp</title>`: the site-name metadata is present and empty. -/
def emptySiteNamePage : Cheerio := fun sel =>
  if sel = "meta[property=\"og:site_name\"]" then
    [⟨"meta", [("property", "og:site_name"), ("content", "")], ""⟩]
  else if sel = "title" then [⟨"title", [], "Acme Corp"⟩]
  else []

/-- A page on which no selector matches anything. -/
def blankPage : Cheerio := fun _ => []

/-- A page with two `address` elements, two telephone anchors and two mail
anchors. -/
def twoContactsPage : Cheerio := fun sel =>
  if sel = "address" then
    [⟨"address", [], "1 Main St"⟩, ⟨"address", [], "2 Side Rd"⟩]
  else if sel = "a[href^=\"tel:\"]" then
    [⟨"a", [("href", "tel:111")], "111"⟩, ⟨"a", [("href", "tel:222")], "222"⟩]
  else if sel = "a[href^=\"mailto:\"]" then
    [⟨"a", [("href", "mailto:a@acme.test")], "a@acme.test"⟩,
      ⟨"a", [("href", "mailto:b@acme.test")], "b@acme.test"⟩]
  else []

end Scraper

namespace Scraper

/-! ## The CSV export handler (`GET /api/companies/csv`, lines 186-221) -/

/-- One entry of `csvData`: the object literal of lines 192-203, as its own
keys in insertion order, each with its value. There is no Screenshot key. -/
def csvItem (company : CompanyRecord) : List (String × Option String) :=
  [("Name", company.name),
   ("Description", company.description),
   ("Logo", company.logo),
   ("Facebook", company.facebook),
   ("LinkedIn", company.linkedin),
   ("Twitter", company.twitter),
   ("Instagram", company.instagram),
   ("Address", company.address),
   ("Phone", company.phone),
   ("Email", company.email)]

/-- The call `Object.keys(item)`. -/
def objectKeys (item : List (String × Option String)) : List (Option String) :=
  item.map fun kv => some kv.1

/-- The call `Object.values(item)`. -/
def objectValues (item : List (String × Option String)) : List (Option String) :=
  item.map fun kv => kv.2

/-- The call `array.join(sep)`: the elements separated by `sep`, an element
that is `undefined` contributing the empty string. Nothing is quoted or
escaped. -/
def join (sep : String) (xs : List (Option String)) : String :=
  sep.intercalate (xs.map fun x => x.getD "")

/-- The constant `csvString` of lines 206-209, from the result of
`Company.find()`. With no stored record `csvData[0]` is `undefined`,
`Object.keys` throws and the handler answers 500: `none`. -/
def csvString (companies : List CompanyRecord) : Option String :=
  let csvData := companies.map csvItem
  match csvData.head? with
  | none => none
  | some first =>
    some (join "\n"
      (some (join "," (objectKeys first))
        :: csvData.map fun item => some (join "," (objectValues item))))

/-- Reading a CSV text the plain way: rows are separated by line feeds, the
fields of a row by commas. -/
def csvRows (s : String) : List (List String) :=
  (s.data.splitOn '\n').map fun line => (line.splitOn ',').map String.mk

/-- The ten exported values of a record, in column order, `undefined` read as
the empty string. -/
def csvFields (company : CompanyRecord) : List String :=
  [company.name.getD "", company.description.getD "", company.logo.getD "",
   company.facebook.getD "", company.linkedin.getD "", company.twitter.getD "",
   company.instagram.getD "", company.address.getD "", company.phone.getD "",
   company.email.getD ""]

/-- The header row of the export. -/
def csvHeader : List String :=
  ["Name", "Description", "Logo", "Facebook", "LinkedIn", "Twitter", "Instagram",
   "Address", "Phone", "Email"]

/-- A stored record named "Acme, Inc." with nothing else set. -/
def acmeIncRecord : CompanyRecord :=
  { name := some "Acme, Inc.", description := none, logo := none, facebook := none,
    linkedin := none, twitter := none, instagram := none, address := none, phone := none,
    email := none, screenshot := some "data:image/png;base64,iVBORw==" }

/-- A stored record with every exported field set. -/
def globexRecord : CompanyRecord :=
  { name := some "Globex", description := some "Widgets", logo := some "g.png",
    facebook := some "https://facebook.com/globex", linkedin := some "https://linkedin.com/globex",
    twitter := some "https://twitter.com/globex", instagram := some "https://instagram.com/globex",
    address := some "1 Main St", phone := some "111", email := some "g@globex.test",
    screenshot := some "data:image/png;base64,iVBORw==" }

/-- A stored record with a name only. -/
def initechRecord : CompanyRecord :=
  { name := some "Initech", description := none, logo := none, facebook := none,
    linkedin := none, twitter := none, instagram := none, address := none, phone := none,
    email := none, screenshot := some "data:image/png;base64,iVBORw==" }

end Scraper

namespace Scraper

/-! ## The route table (`app.post`, `app.get`, `app.delete`) -/

/-- The request methods. -/
inductive Method where
  | GET | HEAD | POST | PUT | PATCH | DELETE | OPTIONS
  deriving DecidableEq, Repr

/-- The five route handlers of `src/server.js`. -/
inductive Handler where
  | scrape
  | listCompanies
  | companyById
  | deleteCompany
  | exportCsv
  deriving DecidableEq, Repr

/-- A segment of a route path: a literal, or a named parameter such as `:id`. -/
inductive Segment where
  | lit (s : String)
  | param (name : String)
  deriving DecidableEq, Repr

/-- A registered route. -/
structure Route where
  method : Method
  path : List Segment
  handler : Handler
  deriving DecidableEq, Repr

/-- The routes in the order `src/server.js` registers them (lines 117, 138,
152, 171 and 186). -/
def routes : List Route :=
  [⟨.POST, [.lit "api", .lit "scrape"], .scrape⟩,
   ⟨.GET, [.lit "api", .lit "companies"], .listCompanies⟩,
   ⟨.GET, [.lit "api", .lit "companies", .param "id"], .companyById⟩,
   ⟨.DELETE, [.lit "api", .lit "companies", .param "id"], .deleteCompany⟩,
   ⟨.GET, [.lit "api", .lit "companies", .lit "csv"], .exportCsv⟩]

/-- The segments of a request path: the text between the slashes after the
leading one; one trailing slash is ignored (express routing is not strict). -/
def pathSegments (path : String) : Option (List String) :=
  match path.data with
  | '/' :: rest =>
    let segs := (rest.splitOn '/').map String.mk
    some (if segs.getLast? = some "" then segs.dropLast else segs)
  | _ => none

/-- Lower-casing of the letters A-Z, for the case-insensitive comparison of
literals. -/
def lower (s : String) : String :=
  String.mk (s.data.map Char.toLower)

/-- Matching the segments of a request path against a route path, as express
does: a literal matches the same text whatever the letter case, a parameter
matches any non-empty segment and is bound to it. -/
def matchPath : List Segment → List String → Option (List (String × String))
  | [], [] => some []
  | .lit l :: ps, s :: ss => if lower s = lower l then matchPath ps ss else none
  | .param n :: ps, s :: ss =>
    if s ≠ "" then (matchPath ps ss).map fun bound => (n, s) :: bound else none
  | _, _ => none

/-- A route handles the method it was registered with; a GET route also
handles HEAD. -/
def handles (r : Route) (m : Method) : Bool :=
  r.method = m || (m = .HEAD && r.method = .GET)

/-- First-match routing in registration order: the handler of the first route
that handles the method and matches the path, with the bound parameters
(`req.params`). No handler of `src/server.js` calls `next`, so the first match
is the handler that serves the request. -/
def dispatch (m : Method) (path : String) : Option (Handler × List (String × String)) :=
  match pathSegments path with
  | none => none
  | some segs =>
    routes.findSome? fun r =>
      if handles r m then (matchPath r.path segs).map fun bound => (r.handler, bound)
      else none

end Scraper

namespace Scraper

/-! ## Lemmas on the retry loop -/

theorem tryBlock_attempts (w : AttemptEnv) (url : String) :
    attempts (tryBlock w url).1 = 1 := by
  unfold tryBlock attempts
  split <;> try rfl
  split <;> try rfl
  split <;> try rfl
  split <;> try rfl
  split <;> try rfl
  split <;> try rfl
  split <;> try rfl
  split <;> rfl

theorem tryBlock_error_of_not_allSucceed (w : AttemptEnv) (url : String)
    (h : allSucceed w url = false) : ∃ m, (tryBlock w url).2 = .error m := by
  unfold allSucceed at h
  unfold tryBlock
  split
  · exact ⟨_, rfl⟩
  · rename_i data hd
    simp only [hd] at h
    split
    · exact ⟨_, rfl⟩
    · split
      · exact ⟨_, rfl⟩
      · split
        · exact ⟨_, rfl⟩
        · split
          · exact ⟨_, rfl⟩
          · split
            · exact ⟨_, rfl⟩
            · split
              · exact ⟨_, rfl⟩
              · split
                · exact ⟨_, rfl⟩
                · simp_all [Except.isOk, Except.toBool]

theorem tryBlock_ok_of_allSucceed (w : AttemptEnv) (url : String)
    (h : allSucceed w url = true) :
    ∃ data q bytes, w.axiosGet url = .ok data ∧ w.cheerioLoad data = .ok q ∧
      w.screenshot = .ok bytes ∧ (tryBlock w url).2 = .ok
        { extractDetails q with screenshot := some (dataUriHeader ++ base64Encode bytes) } := by
  unfold allSucceed at h
  unfold tryBlock
  split
  · simp_all
  · rename_i data hd
    simp only [hd] at h
    split
    · simp_all [Except.isOk, Except.toBool]
    · split
      · simp_all [Except.isOk, Except.toBool]
      · split
        · simp_all [Except.isOk, Except.toBool]
        · split
          · simp_all [Except.isOk, Except.toBool]
          · split
            · simp_all [Except.isOk, Except.toBool]
            · split
              · simp_all [Except.isOk, Except.toBool]
              · split
                · simp_all [Except.isOk, Except.toBool]
                · refine ⟨_, _, _, hd, ?_, ?_, rfl⟩ <;> assumption

theorem attempts_append (s t : List Event) : attempts (s ++ t) = attempts s + attempts t := by
  simp [attempts, List.count_append]

theorem scrapeLoop_returned (world : Nat → AttemptEnv) (url : String) (a : Nat)
    (ha : a < maxRetries) (r : CompanyRecord) (h : (tryBlock (world a) url).2 = .ok r) :
    scrapeLoop world url a = ((tryBlock (world a) url).1, .returned r) := by
  rw [scrapeLoop, if_pos ha]
  split
  · rename_i evs r2 heq
    rw [heq] at h
    simp only [Except.ok.injEq] at h
    simp [heq, h]
  · rename_i evs m heq
    rw [heq] at h
    simp at h

theorem scrapeLoop_thrown (world : Nat → AttemptEnv) (url : String) (a : Nat)
    (ha : a + 1 = maxRetries) (m : String) (h : (tryBlock (world a) url).2 = .error m) :
    scrapeLoop world url a =
      ((tryBlock (world a) url).1 ++ [Event.consoleError (a + 1) m]
          ++ [Event.maxRetriesReached],
        .thrown "Failed to scrape the website") := by
  rw [scrapeLoop, if_pos (by omega)]
  split
  · rename_i evs r2 heq
    rw [heq] at h
    simp at h
  · rename_i evs m2 heq
    rw [heq] at h
    simp only [Except.error.injEq] at h
    simp [heq, h, ha]

theorem scrapeLoop_retry (world : Nat → AttemptEnv) (url : String) (a : Nat)
    (ha : a + 1 < maxRetries) (m : String) (h : (tryBlock (world a) url).2 = .error m) :
    scrapeLoop world url a =
      (((tryBlock (world a) url).1 ++ [Event.consoleError (a + 1) m])
          ++ (scrapeLoop world url (a + 1)).1,
        (scrapeLoop world url (a + 1)).2) := by
  rw [scrapeLoop, if_pos (by omega)]
  split
  · rename_i evs r2 heq
    rw [heq] at h
    simp at h
  · rename_i evs m2 heq
    rw [heq] at h
    simp only [Except.error.injEq] at h
    have : ¬ (a + 1 ≥ maxRetries) := by omega
    simp [heq, h, this]

theorem attempts_consoleError (n : Nat) (m : String) :
    attempts [Event.consoleError n m] = 0 := by
  simp [attempts]

theorem attempts_maxRetriesReached : attempts [Event.maxRetriesReached] = 0 := by
  simp [attempts]

/-- When every remaining pass fails, the loop runs all of them and throws. -/
theorem scrapeLoop_all_fail (world : Nat → AttemptEnv) (url : String) :
    ∀ k a, a + (k + 1) = maxRetries →
      (∀ j, a ≤ j → j < maxRetries → allSucceed (world j) url = false) →
      (scrapeLoop world url a).2 = .thrown "Failed to scrape the website" ∧
        attempts (scrapeLoop world url a).1 = k + 1 := by
  intro k
  induction k with
  | zero =>
    intro a ha hfail
    obtain ⟨m, hm⟩ := tryBlock_error_of_not_allSucceed _ url (hfail a (le_refl a) (by omega))
    rw [scrapeLoop_thrown world url a (by omega) m hm]
    refine ⟨rfl, ?_⟩
    simp only [attempts_append, tryBlock_attempts, attempts_consoleError,
      attempts_maxRetriesReached]
  | succ k ih =>
    intro a ha hfail
    obtain ⟨m, hm⟩ := tryBlock_error_of_not_allSucceed _ url (hfail a (le_refl a) (by omega))
    rw [scrapeLoop_retry world url a (by omega) m hm]
    have h := ih (a + 1) (by omega) (fun j hj hj3 => hfail j (by omega) hj3)
    simp only [attempts_append, tryBlock_attempts, attempts_consoleError, h.1, h.2]
    exact ⟨trivial, by omega⟩

/-- The loop returns the record of the first pass whose stages all succeed,
and runs no pass after it. -/
theorem scrapeLoop_first_success (world : Nat → AttemptEnv) (url : String) :
    ∀ k a, a + k < maxRetries →
      (∀ j, a ≤ j → j < a + k → allSucceed (world j) url = false) →
      allSucceed (world (a + k)) url = true →
      ∃ data q bytes, (world (a + k)).axiosGet url = .ok data ∧
        (world (a + k)).cheerioLoad data = .ok q ∧ (world (a + k)).screenshot = .ok bytes ∧
        (scrapeLoop world url a).2 = .returned
          { extractDetails q with screenshot := some (dataUriHeader ++ base64Encode bytes) } ∧
        attempts (scrapeLoop world url a).1 = k + 1 := by
  intro k
  induction k with
  | zero =>
    intro a ha _ hs
    obtain ⟨data, q, bytes, h1, h2, h3, h4⟩ := tryBlock_ok_of_allSucceed _ url hs
    refine ⟨data, q, bytes, h1, h2, h3, ?_, ?_⟩
    · rw [scrapeLoop_returned world url a (by omega) _ h4]
    · rw [scrapeLoop_returned world url a (by omega) _ h4]
      simp [tryBlock_attempts]
  | succ k ih =>
    intro a ha hfail hs
    obtain ⟨m, hm⟩ := tryBlock_error_of_not_allSucceed _ url (hfail a (le_refl a) (by omega))
    have hk : a + 1 + k = a + (k + 1) := by omega
    obtain ⟨data, q, bytes, h1, h2, h3, h4, h5⟩ :=
      ih (a + 1) (by omega) (fun j hj hj3 => hfail j (by omega) (by omega)) (by rw [hk]; exact hs)
    rw [hk] at h1 h2 h3
    refine ⟨data, q, bytes, h1, h2, h3, ?_, ?_⟩
    · rw [scrapeLoop_retry world url a (by omega) m hm]
      exact h4
    · rw [scrapeLoop_retry world url a (by omega) m hm]
      simp only [attempts_append, tryBlock_attempts, attempts_consoleError, h5]
      omega

/-- Either every pass fails, or there is a first pass whose stages succeed. -/
theorem first_success_or_all_fail (world : Nat → AttemptEnv) (url : String) :
    (∀ i, i < maxRetries → allSucceed (world i) url = false) ∨
    ∃ i, i < maxRetries ∧ allSucceed (world i) url = true ∧
      ∀ j, j < i → allSucceed (world j) url = false := by
  by_cases h : ∃ i, i < maxRetries ∧ allSucceed (world i) url = true
  · right
    refine ⟨Nat.find h, (Nat.find_spec h).1, (Nat.find_spec h).2, ?_⟩
    intro j hj
    have hlt : Nat.find h < maxRetries := (Nat.find_spec h).1
    have := Nat.find_min h hj
    simp only [not_and, Bool.not_eq_true] at this
    exact this (by omega)
  · left
    intro i hi
    simp only [not_exists, not_and, Bool.not_eq_true] at h
    exact h i hi

/-- When every pass fails, the trace ends with the two error lines of the
third pass: the one carrying the message of the error that pass threw, then
"Max retries reached. Failing...". -/
theorem scrapeLoop_all_fail_last (world : Nat → AttemptEnv) (url : String) (m : String)
    (hm : (tryBlock (world (maxRetries - 1)) url).2 = .error m) :
    ∀ k a, a + (k + 1) = maxRetries →
      (∀ j, a ≤ j → j < maxRetries → allSucceed (world j) url = false) →
      ∃ before, (scrapeLoop world url a).1 =
        before ++ [Event.consoleError maxRetries m, Event.maxRetriesReached] := by
  intro k
  induction k with
  | zero =>
    intro a ha _
    have ha2 : a = maxRetries - 1 := by omega
    subst ha2
    rw [scrapeLoop_thrown world url _ (by omega) m hm]
    exact ⟨(tryBlock (world (maxRetries - 1)) url).1, by simp [maxRetries]⟩
  | succ k ih =>
    intro a ha hfail
    obtain ⟨m2, hm2⟩ := tryBlock_error_of_not_allSucceed _ url (hfail a (le_refl a) (by omega))
    rw [scrapeLoop_retry world url a (by omega) m2 hm2]
    obtain ⟨before, h⟩ := ih (a + 1) (by omega) (fun j hj hj3 => hfail j (by omega) hj3)
    exact ⟨((tryBlock (world a) url).1 ++ [Event.consoleError (a + 1) m2]) ++ before, by
      simp only [h, List.append_assoc]⟩

end Scraper

namespace Scraper

/-- A pass whose stages all succeed makes the eight collaborator calls in
source order and nothing else. -/
theorem tryBlock_trace_of_allSucceed (w : AttemptEnv) (url : String)
    (h : allSucceed w url = true) :
    (tryBlock w url).1 =
      [.axiosGet, .cheerioLoad, .launch, .newPage, .goto, .screenshot, .close,
        .readFileSync] := by
  unfold allSucceed at h
  unfold tryBlock
  split
  · simp_all
  · rename_i data hd
    simp only [hd] at h
    split
    · simp_all [Except.isOk, Except.toBool]
    · split
      · simp_all [Except.isOk, Except.toBool]
      · split
        · simp_all [Except.isOk, Except.toBool]
        · split
          · simp_all [Except.isOk, Except.toBool]
          · split
            · simp_all [Except.isOk, Except.toBool]
            · split
              · simp_all [Except.isOk, Except.toBool]
              · split
                · simp_all [Except.isOk, Except.toBool]
                · rfl

/-- The trace of a loop that reaches its first successful pass after `k`
failed ones: `k` failed attempts, then the eight calls of the successful pass,
and nothing after them. -/
theorem scrapeLoop_first_success_trace (world : Nat → AttemptEnv) (url : String) :
    ∀ k a, a + k < maxRetries →
      (∀ j, a ≤ j → j < a + k → allSucceed (world j) url = false) →
      allSucceed (world (a + k)) url = true →
      ∃ before, attempts before = k ∧
        (scrapeLoop world url a).1 = before ++
          [.axiosGet, .cheerioLoad, .launch, .newPage, .goto, .screenshot, .close,
            .readFileSync] := by
  intro k
  induction k with
  | zero =>
    intro a ha _ hs
    obtain ⟨_, _, _, _, _, _, h4⟩ := tryBlock_ok_of_allSucceed _ url hs
    refine ⟨[], rfl, ?_⟩
    rw [scrapeLoop_returned world url a (by omega) _ h4]
    simp only [List.nil_append]
    exact tryBlock_trace_of_allSucceed _ url hs
  | succ k ih =>
    intro a ha hfail hs
    obtain ⟨m, hm⟩ := tryBlock_error_of_not_allSucceed _ url (hfail a (le_refl a) (by omega))
    have hk : a + 1 + k = a + (k + 1) := by omega
    obtain ⟨before, hb, ht⟩ :=
      ih (a + 1) (by omega) (fun j hj hj3 => hfail j (by omega) (by omega)) (by rw [hk]; exact hs)
    refine ⟨((tryBlock (world a) url).1 ++ [Event.consoleError (a + 1) m]) ++ before, ?_, ?_⟩
    · simp only [attempts_append, tryBlock_attempts, attempts_consoleError, hb]
      omega
    · rw [scrapeLoop_retry world url a (by omega) m hm]
      simp only [ht, List.append_assoc]

end Scraper

namespace Scraper

/-! ## base64 round trip -/

/-- The test vectors of RFC 4648, section 10 (the bytes of "", "f", "fo",
"foo", "foob", "fooba", "foobar"). -/
theorem base64Encode_test_vectors :
    base64Encode [] = "" ∧
      base64Encode [102] = "Zg==" ∧
      base64Encode [102, 111] = "Zm8=" ∧
      base64Encode [102, 111, 111] = "Zm9v" ∧
      base64Encode [102, 111, 111, 98] = "Zm9vYg==" ∧
      base64Encode [102, 111, 111, 98, 97] = "Zm9vYmE=" ∧
      base64Encode [102, 111, 111, 98, 97, 114] = "Zm9vYmFy" := by
  decide

theorem b64index_b64char : ∀ n, n < 64 → b64index (b64char n) = some n := by
  decide

theorem b64char_ne_pad : ∀ n, n < 64 → b64char n ≠ '=' := by
  decide

theorem base64Decode_base64Chars (bytes : List Nat) (h : ∀ x ∈ bytes, x < 256) :
    base64Decode (base64Chars bytes) = some bytes := by
  induction bytes using base64Chars.induct with
  | case1 => rfl
  | case2 a =>
    have ha : a < 256 := h a (by simp)
    simp only [base64Chars, base64Decode, and_self, ite_true,
      b64index_b64char (a / 4) (by omega), b64index_b64char (a % 4 * 16) (by omega)]
    congr 2
    omega
  | case3 a b =>
    have ha : a < 256 := h a (by simp)
    have hb : b < 256 := h b (by simp)
    have h3 : b64char (b % 16 * 4) ≠ '=' := b64char_ne_pad _ (by omega)
    simp only [base64Chars, base64Decode, h3, false_and, and_self, ite_true, ite_false,
      b64index_b64char (a / 4) (by omega), b64index_b64char (a % 4 * 16 + b / 16) (by omega),
      b64index_b64char (b % 16 * 4) (by omega)]
    congr 2
    · omega
    · congr 1
      omega
  | case4 a b c rest ih =>
    have ha : a < 256 := h a (by simp)
    have hb : b < 256 := h b (by simp)
    have hc : c < 256 := h c (by simp)
    have h3 : b64char (b % 16 * 4 + c / 64) ≠ '=' := b64char_ne_pad _ (by omega)
    have h4 : b64char (c % 64) ≠ '=' := b64char_ne_pad _ (by omega)
    have hrest := ih (fun x hx => h x (by simp [hx]))
    simp only [base64Chars, base64Decode, h3, h4, false_and, ite_false, hrest,
      b64index_b64char (a / 4) (by omega), b64index_b64char (a % 4 * 16 + b / 16) (by omega),
      b64index_b64char (b % 16 * 4 + c / 64) (by omega), b64index_b64char (c % 64) (by omega)]
    congr 2
    · omega
    · congr 1
      · omega
      · congr 1
        omega

theorem decodeDataUri_header_append (t : String) :
    decodeDataUri (dataUriHeader ++ t) = base64Decode t.data := by
  unfold decodeDataUri
  have hp : dataUriHeader.data.isPrefixOf (dataUriHeader ++ t).data = true := by
    rw [String.data_append, List.isPrefixOf_iff_prefix]
    exact List.prefix_append _ _
  rw [if_pos hp, String.data_append, List.drop_left]

end Scraper

namespace Scraper

/-- C1: when every one of the three passes has a failing stage, `scrapeData`
makes exactly 3 attempts and ends by throwing an error; it returns no record. -/
theorem scrapeData_three_attempts_then_throws (world : Nat → AttemptEnv) (url : String)
    (hfail : ∀ i, i < maxRetries → allSucceed (world i) url = false) :
    attempts (scrapeData world url).1 = 3 ∧
      (∃ m, (scrapeData world url).2 = .thrown m) ∧
      ∀ r, (scrapeData world url).2 ≠ .returned r := by
  have h := scrapeLoop_all_fail world url 2 0 rfl (fun j _ hj => hfail j hj)
  refine ⟨h.2, ⟨_, h.1⟩, ?_⟩
  intro r hr
  have h1 := h.1
  unfold scrapeData at hr
  rw [hr] at h1
  exact Completion.noConfusion h1

/-- C1 at a concrete input: a fetch answering 404 on every pass. -/
theorem scrapeData_three_attempts_then_throws_witness :
    (∀ i, i < maxRetries → allSucceed ((fun _ => notFoundEnv) i) "http://acme.test" = false) ∧
    attempts (scrapeData (fun _ => notFoundEnv) "http://acme.test").1 = 3 ∧
      (∃ m, (scrapeData (fun _ => notFoundEnv) "http://acme.test").2 = .thrown m) ∧
      ∀ r, (scrapeData (fun _ => notFoundEnv) "http://acme.test").2 ≠ .returned r :=
  ⟨fun _ _ => rfl,
    scrapeData_three_attempts_then_throws (fun _ => notFoundEnv) "http://acme.test"
      (fun _ _ => rfl)⟩

/-- C2: `scrapeData` returns a record exactly when one of the first 3 passes
has fetch, parse, browser render and screenshot read all succeed. The record is
the one assembled by the first such pass and by no other: each of its ten
detail fields is what lines 63-72 read from the markup that pass loaded
(`q`), its screenshot field is set to the data URI of the bytes that pass
captured (it decodes back to those bytes), and the successful pass is the last
thing in the trace: `i` failed attempts come before it and no call after it. -/
theorem scrapeData_returns_first_success (world : Nat → AttemptEnv) (url : String) :
    ((∃ r, (scrapeData world url).2 = .returned r) ↔
        ∃ i, i < 3 ∧ allSucceed (world i) url = true) ∧
    ∀ i, i < 3 → allSucceed (world i) url = true →
      (∀ j, j < i → allSucceed (world j) url = false) →
      ∃ data q bytes, (world i).axiosGet url = .ok data ∧
        (world i).cheerioLoad data = .ok q ∧ (world i).screenshot = .ok bytes ∧
        (scrapeData world url).2 = .returned
          { extractDetails q with screenshot := some (dataUriHeader ++ base64Encode bytes) } ∧
        (scrapeData world url).2 = .returned
          { name := jsOr (attr (q "meta[property=\"og:site_name\"]") "content")
              (some (text (q "title")))
            description := attr (q "meta[name=\"description\"]") "content"
            logo := jsOr (attr (q "meta[property=\"og:image\"]") "content")
              (attr (q "link[rel=\"icon\"]") "href")
            facebook := attr (q "a[href*=\"facebook.com\"]") "href"
            linkedin := attr (q "a[href*=\"linkedin.com\"]") "href"
            twitter := attr (q "a[href*=\"twitter.com\"]") "href"
            instagram := attr (q "a[href*=\"instagram.com\"]") "href"
            address := some (text (q "address"))
            phone := some (text (q "a[href^=\"tel:\"]"))
            email := some (text (q "a[href^=\"mailto:\"]"))
            screenshot := some ("data:image/png;base64," ++ base64Encode bytes) } ∧
        ((∀ x ∈ bytes, x < 256) →
          decodeDataUri ("data:image/png;base64," ++ base64Encode bytes) = some bytes) ∧
        (∀ r, (scrapeData world url).2 = .returned r → r.screenshot ≠ none) ∧
        attempts (scrapeData world url).1 = i + 1 ∧
        ∃ before, attempts before = i ∧
          (scrapeData world url).1 = before ++
            [.axiosGet, .cheerioLoad, .launch, .newPage, .goto, .screenshot, .close,
              .readFileSync] := by
  have key : ∀ i, i < 3 → allSucceed (world i) url = true →
      (∀ j, j < i → allSucceed (world j) url = false) →
      ∃ data q bytes, (world i).axiosGet url = .ok data ∧
        (world i).cheerioLoad data = .ok q ∧ (world i).screenshot = .ok bytes ∧
        (scrapeData world url).2 = .returned
          { extractDetails q with screenshot := some (dataUriHeader ++ base64Encode bytes) } ∧
        attempts (scrapeData world url).1 = i + 1 ∧
        ∃ before, attempts before = i ∧
          (scrapeData world url).1 = before ++
            [.axiosGet, .cheerioLoad, .launch, .newPage, .goto, .screenshot, .close,
              .readFileSync] := by
    intro i hi hs hprev
    have h := scrapeLoop_first_success world url i 0 (by simpa [maxRetries] using hi)
      (fun j _ hj => hprev j (by omega)) (by simpa using hs)
    have ht := scrapeLoop_first_success_trace world url i 0 (by simpa [maxRetries] using hi)
      (fun j _ hj => hprev j (by omega)) (by simpa using hs)
    simp only [Nat.zero_add] at h
    obtain ⟨data, q, bytes, h1, h2, h3, h4, h5⟩ := h
    exact ⟨data, q, bytes, h1, h2, h3, h4, h5, ht⟩
  refine ⟨⟨?_, ?_⟩, ?_⟩
  · rintro ⟨r, hr⟩
    rcases first_success_or_all_fail world url with hall | ⟨i, hi, hs, _⟩
    · have h1 := (scrapeLoop_all_fail world url 2 0 rfl (fun j _ hj => hall j hj)).1
      unfold scrapeData at hr
      rw [hr] at h1
      exact Completion.noConfusion h1
    · exact ⟨i, hi, hs⟩
  · rintro ⟨i, hi, hs⟩
    rcases first_success_or_all_fail world url with hall | ⟨k, hk, hks, hprev⟩
    · rw [hall i hi] at hs
      exact absurd hs (by decide)
    · obtain ⟨_, _, _, _, _, _, h4, _⟩ := key k hk hks hprev
      exact ⟨_, h4⟩
  · intro i hi hs hprev
    obtain ⟨data, q, bytes, h1, h2, h3, h4, h5, ht⟩ := key i hi hs hprev
    refine ⟨data, q, bytes, h1, h2, h3, h4, h4, ?_, ?_, h5, ht⟩
    · intro hbytes
      have hd := decodeDataUri_header_append (base64Encode bytes)
      rw [show dataUriHeader = "data:image/png;base64," from rfl] at hd
      rw [hd]
      exact base64Decode_base64Chars bytes hbytes
    · intro r hr
      rw [h4] at hr
      cases hr
      simp

/-- C2 at a concrete input: the first pass fails on the fetch (404), the second
succeeds on a page where every rule matches and captures the bytes 77 97 110,
the third would succeed on another page. The record returned is the one of the
second pass, field by field, after 2 attempts, and the trace ends with the
calls of the second pass. -/
theorem scrapeData_returns_first_success_witness :
    (scrapeData retryWorld "http://acme.test").2 = .returned
        { name := some "Acme"
          description := some "Anvils and more"
          logo := some "https://acme.test/og.png"
          facebook := some "https://facebook.com/acme"
          linkedin := some "https://linkedin.com/company/acme"
          twitter := some "https://twitter.com/acme"
          instagram := some "https://instagram.com/acme"
          address := some "1 Main St"
          phone := some "111"
          email := some "a@acme.test"
          screenshot := some "data:image/png;base64,TWFu" } ∧
      decodeDataUri "data:image/png;base64,TWFu" = some [77, 97, 110] ∧
      attempts (scrapeData retryWorld "http://acme.test").1 = 2 ∧
      (scrapeData retryWorld "http://acme.test").1 =
        [.axiosGet, .consoleError 1 "Request failed with status code 404",
          .axiosGet, .cheerioLoad, .launch, .newPage, .goto, .screenshot, .close,
          .readFileSync] := by
  obtain ⟨data, q, bytes, _, h2, h3, _, h4, h5, _, h6, before, _, h7⟩ :=
    (scrapeData_returns_first_success retryWorld "http://acme.test").2 1 (by decide) rfl
      (fun j hj => by
        have h0 : j = 0 := by omega
        subst h0
        rfl)
  have hq : q = fullPage := by
    have h : Except.ok fullPage = (Except.ok q : Except String Cheerio) := h2
    injection h with h
    exact h.symm
  have hb : bytes = [77, 97, 110] := by
    have h : Except.ok [77, 97, 110] = (Except.ok bytes : Except String (List Nat)) := h3
    injection h with h
    exact h.symm
  subst hq hb
  refine ⟨?_, ?_, h6, ?_⟩
  · rw [h4]
    decide
  · exact h5 (by decide)
  · simp [scrapeData, scrapeLoop, maxRetries, tryBlock, retryWorld, notFoundEnv, fullEnv, okEnv]

end Scraper

namespace Scraper

/-- C3, as stated, fails: with a fetch answering 404 on all three passes the
third pass throws "Request failed with status code 404", while the error
`scrapeData` throws to its caller has the message "Failed to scrape the
website", in which "404" does not occur. -/
theorem scrapeData_drops_underlying_message :
    (tryBlock notFoundEnv "http://acme.test").2 = .error "Request failed with status code 404" ∧
    (scrapeData (fun _ => notFoundEnv) "http://acme.test").2 =
      .thrown "Failed to scrape the website" ∧
    ¬ ("404".data <:+: "Failed to scrape the website".data) := by
  refine ⟨rfl, ?_, by decide⟩
  simp [scrapeData, scrapeLoop, maxRetries, tryBlock, notFoundEnv, okEnv]

/-- C3, amended: whenever `scrapeData` throws, the message of the thrown error
is the fixed text "Failed to scrape the website"; the message of the error the
third pass threw goes to the error log only: the trace ends with the error
line of attempt 3 carrying that message, followed by the line
"Max retries reached. Failing...". -/
theorem scrapeData_thrown_message (world : Nat → AttemptEnv) (url : String) (m : String)
    (h : (scrapeData world url).2 = .thrown m) :
    m = "Failed to scrape the website" ∧
      ∃ m0 before, (tryBlock (world 2) url).2 = .error m0 ∧
        (scrapeData world url).1 =
          before ++ [Event.consoleError 3 m0, Event.maxRetriesReached] := by
  rcases first_success_or_all_fail world url with hall | ⟨i, hi, hs, hprev⟩
  · have h1 := (scrapeLoop_all_fail world url 2 0 rfl (fun j _ hj => hall j hj)).1
    unfold scrapeData at h
    rw [h1] at h
    refine ⟨by cases h; rfl, ?_⟩
    obtain ⟨m0, hm0⟩ := tryBlock_error_of_not_allSucceed (world 2) url (hall 2 (by decide))
    obtain ⟨before, hb⟩ :=
      scrapeLoop_all_fail_last world url m0 hm0 2 0 rfl (fun j _ hj => hall j hj)
    exact ⟨m0, before, hm0, hb⟩
  · have h1 := scrapeLoop_first_success world url i 0 (by simpa using hi)
      (fun j _ hj => hprev j (by omega)) (by simpa using hs)
    obtain ⟨_, _, _, _, _, _, h4, _⟩ := h1
    unfold scrapeData at h
    rw [h4] at h
    exact Completion.noConfusion h

/-- C3, amended, at a concrete input: the fetch answers 404 on every pass. -/
theorem scrapeData_thrown_message_witness :
    (scrapeData (fun _ => notFoundEnv) "http://acme.test").2 =
        .thrown "Failed to scrape the website" ∧
      ∃ m0 before, (tryBlock notFoundEnv "http://acme.test").2 = .error m0 ∧
        (scrapeData (fun _ => notFoundEnv) "http://acme.test").1 =
          before ++ [Event.consoleError 3 m0, Event.maxRetriesReached] :=
  have h : (scrapeData (fun _ => notFoundEnv) "http://acme.test").2 =
      .thrown "Failed to scrape the website" := by
    simp [scrapeData, scrapeLoop, maxRetries, tryBlock, notFoundEnv, okEnv]
  ⟨h, (scrapeData_thrown_message (fun _ => notFoundEnv) "http://acme.test" _ h).2⟩

/-- C6 fails on the code: in a pass whose navigation throws after the browser
was launched, `browser.close()` is never called. Over the three passes of such
a run the browser is launched 3 times and closed 0 times. -/
theorem browser_left_open_when_goto_throws :
    (tryBlock navTimeoutEnv "http://acme.test").1 =
        [.axiosGet, .cheerioLoad, .launch, .newPage, .goto] ∧
      (tryBlock navTimeoutEnv "http://acme.test").1.count Event.launch = 1 ∧
      (tryBlock navTimeoutEnv "http://acme.test").1.count Event.close = 0 ∧
      (scrapeData (fun _ => navTimeoutEnv) "http://acme.test").1.count Event.launch = 3 ∧
      (scrapeData (fun _ => navTimeoutEnv) "http://acme.test").1.count Event.close = 0 := by
  refine ⟨by decide, by decide, by decide, ?_, ?_⟩ <;>
    simp [scrapeData, scrapeLoop, maxRetries, tryBlock, navTimeoutEnv, okEnv]

end Scraper

namespace Scraper

/-- C7: the screenshot field of the record `scrapeData` returns is the string
"data:image/png;base64," followed by the base64 encoding of the bytes captured
in the pass that returned (the first pass whose stages all succeed); removing
that header and base64-decoding the remainder gives back exactly those bytes. -/
theorem screenshot_data_uri_roundtrip (world : Nat → AttemptEnv) (url : String)
    (r : CompanyRecord) (h : (scrapeData world url).2 = .returned r) :
    ∃ i bytes, i < 3 ∧ allSucceed (world i) url = true ∧
      (∀ j, j < i → allSucceed (world j) url = false) ∧
      (world i).screenshot = .ok bytes ∧
      r.screenshot = some ("data:image/png;base64," ++ base64Encode bytes) ∧
      ((∀ x ∈ bytes, x < 256) →
        decodeDataUri ("data:image/png;base64," ++ base64Encode bytes) = some bytes) := by
  rcases first_success_or_all_fail world url with hall | ⟨i, hi, hs, hprev⟩
  · have h1 := (scrapeLoop_all_fail world url 2 0 rfl (fun j _ hj => hall j hj)).1
    unfold scrapeData at h
    rw [h1] at h
    exact Completion.noConfusion h
  · have h1 := scrapeLoop_first_success world url i 0 (by simpa using hi)
      (fun j _ hj => hprev j (by omega)) (by simpa using hs)
    simp only [Nat.zero_add] at h1
    obtain ⟨data, q, bytes, _, _, h3, h4, _⟩ := h1
    unfold scrapeData at h
    rw [h4] at h
    cases h
    refine ⟨i, bytes, hi, hs, hprev, h3, rfl, ?_⟩
    intro hbytes
    have hd := decodeDataUri_header_append (base64Encode bytes)
    rw [show dataUriHeader = "data:image/png;base64," from rfl] at hd
    rw [hd]
    exact base64Decode_base64Chars bytes hbytes

/-- C7 at a concrete input: a run that captures the four bytes 137 80 78 71. -/
theorem screenshot_data_uri_roundtrip_witness :
    (scrapeData (fun _ => okEnv) "http://acme.test").2 =
      .returned { extractDetails acmePage with screenshot := some "data:image/png;base64,iVBORw==" } ∧
    ∃ i bytes, i < 3 ∧ allSucceed okEnv "http://acme.test" = true ∧
      (∀ j, j < i → allSucceed okEnv "http://acme.test" = false) ∧
      okEnv.screenshot = .ok bytes ∧
      some "data:image/png;base64,iVBORw==" = some ("data:image/png;base64," ++ base64Encode bytes) ∧
      ((∀ x ∈ bytes, x < 256) →
        decodeDataUri ("data:image/png;base64," ++ base64Encode bytes) = some bytes) :=
  have h : (scrapeData (fun _ => okEnv) "http://acme.test").2 =
      .returned { extractDetails acmePage with
        screenshot := some "data:image/png;base64,iVBORw==" } := by
    simp [scrapeData, scrapeLoop, maxRetries, tryBlock, okEnv]
    decide
  ⟨h, screenshot_data_uri_roundtrip (fun _ => okEnv) "http://acme.test" _ h⟩

end Scraper

namespace Scraper

/-! ## Extraction of the details -/

theorem jsOr_of_nonempty (c : String) (b : Option String) (hc : c ≠ "") :
    jsOr (some c) b = some c := by
  simp [jsOr, truthy, hc]

theorem jsOr_none (b : Option String) : jsOr none b = b := by
  simp [jsOr, truthy]

theorem jsOr_empty (b : Option String) : jsOr (some "") b = b := by
  simp [jsOr, truthy]

theorem attr_nil (name : String) : attr [] name = none := rfl

theorem text_nil : text [] = "" := rfl

theorem foldl_append_acc (l : List String) (acc : String) :
    List.foldl (fun r s => r ++ s) acc l = acc ++ List.foldl (fun r s => r ++ s) "" l := by
  induction l generalizing acc with
  | nil => simp
  | cons a l ih =>
    simp only [List.foldl_cons, String.empty_append]
    rw [ih (acc ++ a), ih a, String.append_assoc]

theorem text_cons (e : Element) (rest : List Element) :
    text (e :: rest) = e.textContent ++ text rest := by
  simp only [text, String.join, List.map_cons, List.foldl_cons, String.empty_append]
  exact foldl_append_acc _ _

theorem text_singleton (e : Element) : text [e] = e.textContent := by
  rw [text_cons, text_nil, String.append_empty]

/-- C4, as stated, fails: on the page whose site-name metadata is present with
an empty content and whose title is "Acme Corp", the metadata value is the
empty string and the extracted name is the title text. -/
theorem name_falls_back_on_empty_metadata :
    attr (emptySiteNamePage "meta[property=\"og:site_name\"]") "content" = some "" ∧
      (extractDetails emptySiteNamePage).name = some "Acme Corp" ∧
      (extractDetails emptySiteNamePage).name ≠ some "" := by
  decide

/-- C4, amended: when the primary metadata of a field (og:site_name content for
name, og:image content for logo) is present and not the empty string, the
extracted field is that value, whatever the fallback holds; when it is absent
or empty, the field is the fallback (title text for name, icon link href for
logo). -/
theorem extract_priority (q : Cheerio) :
    (∀ c, attr (q "meta[property=\"og:site_name\"]") "content" = some c → c ≠ "" →
      (extractDetails q).name = some c) ∧
    (∀ c, attr (q "meta[property=\"og:image\"]") "content" = some c → c ≠ "" →
      (extractDetails q).logo = some c) ∧
    (attr (q "meta[property=\"og:site_name\"]") "content" = none ∨
        attr (q "meta[property=\"og:site_name\"]") "content" = some "" →
      (extractDetails q).name = some (text (q "title"))) ∧
    (attr (q "meta[property=\"og:image\"]") "content" = none ∨
        attr (q "meta[property=\"og:image\"]") "content" = some "" →
      (extractDetails q).logo = attr (q "link[rel=\"icon\"]") "href") := by
  refine ⟨?_, ?_, ?_, ?_⟩
  · intro c h hc
    simp only [extractDetails, h, jsOr_of_nonempty c _ hc]
  · intro c h hc
    simp only [extractDetails, h, jsOr_of_nonempty c _ hc]
  · rintro (h | h) <;> simp only [extractDetails, h, jsOr_none, jsOr_empty]
  · rintro (h | h) <;> simp only [extractDetails, h, jsOr_none, jsOr_empty]

/-- C4, amended, at concrete inputs: scenario A (site-name metadata "Acme" and
title "Acme Corp") gives the name "Acme"; scenario B (no site-name metadata,
title "Acme Corp") gives the name "Acme Corp". -/
theorem extract_priority_witness :
    (extractDetails scenarioAPage).name = some "Acme" ∧
      (extractDetails acmePage).name = some "Acme Corp" :=
  ⟨(extract_priority scenarioAPage).1 "Acme" (by decide) (by decide),
    (extract_priority acmePage).2.2.1 (Or.inl (by decide))⟩


/-- C5, as stated, fails: on a page where no selector matches anything, the
fields name, address, phone and email of the extracted record are the empty
string, not `undefined`. -/
theorem unmatched_text_fields_are_empty_strings :
    (extractDetails blankPage).name = some "" ∧
      (extractDetails blankPage).address = some "" ∧
      (extractDetails blankPage).phone = some "" ∧
      (extractDetails blankPage).email = some "" := by
  decide

/-- C5, amended: when no extraction rule of a field matches anything in the
document, the field is `undefined` for description, logo, facebook, linkedin,
twitter and instagram, and it is the empty string for name, address, phone and
email. -/
theorem extract_unmatched (q : Cheerio) :
    (q "meta[name=\"description\"]" = [] → (extractDetails q).description = none) ∧
    (q "meta[property=\"og:image\"]" = [] → q "link[rel=\"icon\"]" = [] →
      (extractDetails q).logo = none) ∧
    (q "a[href*=\"facebook.com\"]" = [] → (extractDetails q).facebook = none) ∧
    (q "a[href*=\"linkedin.com\"]" = [] → (extractDetails q).linkedin = none) ∧
    (q "a[href*=\"twitter.com\"]" = [] → (extractDetails q).twitter = none) ∧
    (q "a[href*=\"instagram.com\"]" = [] → (extractDetails q).instagram = none) ∧
    (q "meta[property=\"og:site_name\"]" = [] → q "title" = [] →
      (extractDetails q).name = some "") ∧
    (q "address" = [] → (extractDetails q).address = some "") ∧
    (q "a[href^=\"tel:\"]" = [] → (extractDetails q).phone = some "") ∧
    (q "a[href^=\"mailto:\"]" = [] → (extractDetails q).email = some "") := by
  refine ⟨?_, ?_, ?_, ?_, ?_, ?_, ?_, ?_, ?_, ?_⟩
  · intro h
    simp only [extractDetails, h, attr_nil]
  · intro h1 h2
    simp only [extractDetails, h1, h2, attr_nil, jsOr_none]
  · intro h
    simp only [extractDetails, h, attr_nil]
  · intro h
    simp only [extractDetails, h, attr_nil]
  · intro h
    simp only [extractDetails, h, attr_nil]
  · intro h
    simp only [extractDetails, h, attr_nil]
  · intro h1 h2
    simp only [extractDetails, h1, h2, attr_nil, jsOr_none, text_nil]
  · intro h
    simp only [extractDetails, h, text_nil]
  · intro h
    simp only [extractDetails, h, text_nil]
  · intro h
    simp only [extractDetails, h, text_nil]

/-- C5, amended, at a concrete input: the page with a title and a description
only has no logo, no social link, and empty address, phone and email. -/
theorem extract_unmatched_witness :
    (extractDetails acmePage).logo = none ∧
      (extractDetails acmePage).facebook = none ∧
      (extractDetails acmePage).linkedin = none ∧
      (extractDetails acmePage).twitter = none ∧
      (extractDetails acmePage).instagram = none ∧
      (extractDetails acmePage).address = some "" ∧
      (extractDetails acmePage).phone = some "" ∧
      (extractDetails acmePage).email = some "" ∧
      (extractDetails blankPage).description = none ∧
      (extractDetails blankPage).name = some "" :=
  have h := extract_unmatched acmePage
  have b := extract_unmatched blankPage
  ⟨h.2.1 rfl rfl, h.2.2.1 rfl, h.2.2.2.1 rfl, h.2.2.2.2.1 rfl, h.2.2.2.2.2.1 rfl,
    h.2.2.2.2.2.2.2.1 rfl, h.2.2.2.2.2.2.2.2.1 rfl, h.2.2.2.2.2.2.2.2.2 rfl,
    b.1 rfl, b.2.2.2.2.2.2.1 rfl rfl⟩

/-- C9, as stated, fails: on a page with two address elements, two telephone
anchors and two mail anchors, each field is the text of both matching elements
run together, not the text of the first one. -/
theorem later_matches_contribute :
    (extractDetails twoContactsPage).address = some "1 Main St2 Side Rd" ∧
      (extractDetails twoContactsPage).phone = some "111222" ∧
      (extractDetails twoContactsPage).email = some "a@acme.testb@acme.test" ∧
      (extractDetails twoContactsPage).address ≠ some "1 Main St" ∧
      (extractDetails twoContactsPage).phone ≠ some "111" ∧
      (extractDetails twoContactsPage).email ≠ some "a@acme.test" := by
  decide

/-- C9, amended: address is the text of every address element, phone the text
content of every anchor whose href starts with "tel:", email the text content
of every anchor whose href starts with "mailto:", joined in document order with
nothing in between: the first matching element's text comes first and the text
of the later ones follows it. With exactly one matching element the field is
that element's text. -/
theorem extract_contact_text (q : Cheerio) :
    (∀ e rest, q "address" = e :: rest →
      (extractDetails q).address = some (e.textContent ++ text rest)) ∧
    (∀ e rest, q "a[href^=\"tel:\"]" = e :: rest →
      (extractDetails q).phone = some (e.textContent ++ text rest)) ∧
    (∀ e rest, q "a[href^=\"mailto:\"]" = e :: rest →
      (extractDetails q).email = some (e.textContent ++ text rest)) ∧
    (∀ e, q "address" = [e] → (extractDetails q).address = some e.textContent) ∧
    (∀ e, q "a[href^=\"tel:\"]" = [e] → (extractDetails q).phone = some e.textContent) ∧
    (∀ e, q "a[href^=\"mailto:\"]" = [e] → (extractDetails q).email = some e.textContent) := by
  refine ⟨?_, ?_, ?_, ?_, ?_, ?_⟩
  · intro e rest h
    simp only [extractDetails, h, text_cons]
  · intro e rest h
    simp only [extractDetails, h, text_cons]
  · intro e rest h
    simp only [extractDetails, h, text_cons]
  · intro e h
    simp only [extractDetails, h, text_singleton]
  · intro e h
    simp only [extractDetails, h, text_singleton]
  · intro e h
    simp only [extractDetails, h, text_singleton]

/-- C9, amended, at concrete inputs: the page with two address elements and
two telephone anchors, and a page with a single address element. -/
theorem extract_contact_text_witness :
    (extractDetails twoContactsPage).address = some "1 Main St2 Side Rd" ∧
      (extractDetails twoContactsPage).phone = some "111222" ∧
      (extractDetails (fun sel => if sel = "address" then [⟨"address", [], "1 Main St"⟩]
        else [])).address = some "1 Main St" :=
  ⟨(extract_contact_text twoContactsPage).1 ⟨"address", [], "1 Main St"⟩
      [⟨"address", [], "2 Side Rd"⟩] rfl,
    (extract_contact_text twoContactsPage).2.1 ⟨"a", [("href", "tel:111")], "111"⟩
      [⟨"a", [("href", "tel:222")], "222"⟩] rfl,
    (extract_contact_text _).2.2.2.1 ⟨"address", [], "1 Main St"⟩ rfl⟩

end Scraper

namespace Scraper

/-! ## CSV export -/

theorem intercalate_cons_cons {α : Type} (sep a b : List α) (l : List (List α)) :
    List.intercalate sep (a :: b :: l) = a ++ sep ++ List.intercalate sep (b :: l) := by
  simp [List.intercalate]

theorem intercalate_go_data (sep : String) (l : List String) (acc : String) :
    (String.intercalate.go acc sep l).data =
      List.intercalate sep.data (acc.data :: l.map String.data) := by
  induction l generalizing acc with
  | nil => simp [String.intercalate.go, List.intercalate]
  | cons a l ih =>
    rw [String.intercalate.go, ih, List.map_cons, intercalate_cons_cons]
    cases l with
    | nil => simp [List.intercalate]
    | cons b l =>
      rw [List.map_cons, intercalate_cons_cons, intercalate_cons_cons]
      simp [List.append_assoc]

theorem intercalate_data (sep : String) (l : List String) :
    (String.intercalate sep l).data = List.intercalate sep.data (l.map String.data) := by
  cases l with
  | nil => simp [String.intercalate, List.intercalate]
  | cons a l => rw [String.intercalate, intercalate_go_data, List.map_cons]

theorem not_mem_intercalate {α : Type} (x : α) (sep : List α) (ls : List (List α))
    (hsep : x ∉ sep) (hls : ∀ l ∈ ls, x ∉ l) : x ∉ List.intercalate sep ls := by
  induction ls with
  | nil => simp [List.intercalate]
  | cons a ls ih =>
    cases ls with
    | nil => simpa [List.intercalate] using hls
    | cons b ls =>
      rw [intercalate_cons_cons]
      simp only [List.mem_append, not_or]
      exact ⟨⟨hls a (by simp), hsep⟩, ih (fun l hl => hls l (by simp [hl]))⟩


theorem row_roundtrip (fields : List String) (hne : fields ≠ [])
    (h : ∀ v ∈ fields, ',' ∉ v.data) :
    ((",".intercalate fields).data.splitOn ',').map String.mk = fields := by
  rw [intercalate_data]
  have hd : (",".data : List Char) = [','] := rfl
  rw [hd, List.splitOn_intercalate _ ',' (by simpa using h) (by simpa using hne)]
  simp [List.map_map, Function.comp_def]

theorem row_no_line_feed (fields : List String) (h : ∀ v ∈ fields, '\n' ∉ v.data) :
    '\n' ∉ (",".intercalate fields).data := by
  rw [intercalate_data]
  exact not_mem_intercalate _ _ _ (by decide) (by simpa using h)

theorem csvRows_intercalate (rows : List (List String)) (hne : rows ≠ [])
    (h : ∀ r ∈ rows, r ≠ [] ∧ ∀ v ∈ r, ',' ∉ v.data ∧ '\n' ∉ v.data) :
    csvRows ("\n".intercalate (rows.map fun r => ",".intercalate r)) = rows := by
  unfold csvRows
  rw [intercalate_data]
  have hd : ("\n".data : List Char) = ['\n'] := rfl
  rw [hd, List.splitOn_intercalate _ '\n' ?_ (by simpa using hne)]
  · rw [List.map_map, List.map_map]
    conv => rhs; rw [← List.map_id rows]
    apply List.map_congr_left
    intro r hr
    simp only [Function.comp_apply, id]
    exact row_roundtrip r (h r hr).1 (fun v hv => ((h r hr).2 v hv).1)
  · intro l hl
    simp only [List.map_map, List.mem_map, Function.comp_apply] at hl
    obtain ⟨r, hr, rfl⟩ := hl
    exact row_no_line_feed r (fun v hv => ((h r hr).2 v hv).2)

theorem csvString_eq (c : CompanyRecord) (cs : List CompanyRecord) :
    csvString (c :: cs) = some ("\n".intercalate
      ((csvHeader :: (c :: cs).map csvFields).map fun r => ",".intercalate r)) := by
  simp [csvString, join, objectKeys, objectValues, csvItem, csvHeader, csvFields,
    List.map_map, Function.comp_def]

/-- C8, as stated, fails: values are joined with commas and line feeds without
quoting, so the export of the single record named "Acme, Inc." has a data row
of 11 comma-separated fields, not 10. -/
theorem csv_row_of_eleven_fields :
    (csvString [acmeIncRecord]).map csvRows =
        some [csvHeader, ["Acme", " Inc.", "", "", "", "", "", "", "", "", ""]] ∧
      ((csvString [acmeIncRecord]).map fun s => (csvRows s).map List.length) =
        some [10, 11] := by
  decide

/-- C8, amended: for every non-empty sequence of n stored records none of whose
ten exported values contains a comma or a line feed, the CSV string consists of
the header row Name,Description,Logo,Facebook,LinkedIn,Twitter,Instagram,
Address,Phone,Email followed by exactly n data rows, one per record in input
order, each with exactly those 10 fields in that column order (`undefined`
exported as the empty field) and no screenshot column. -/
theorem csvString_rows (companies : List CompanyRecord) (hne : companies ≠ [])
    (hclean : ∀ c ∈ companies, ∀ v ∈ csvFields c, ',' ∉ v.data ∧ '\n' ∉ v.data) :
    ∃ s, csvString companies = some s ∧
      csvRows s =
        ["Name", "Description", "Logo", "Facebook", "LinkedIn", "Twitter", "Instagram",
          "Address", "Phone", "Email"] :: companies.map csvFields ∧
      (csvRows s).length = companies.length + 1 ∧
      ∀ row ∈ csvRows s, row.length = 10 := by
  cases companies with
  | nil => exact absurd rfl hne
  | cons c cs =>
    have hrows : csvRows ("\n".intercalate
        ((csvHeader :: (c :: cs).map csvFields).map fun r => ",".intercalate r)) =
        csvHeader :: (c :: cs).map csvFields := by
      apply csvRows_intercalate _ (by simp)
      intro r hr
      rcases List.mem_cons.1 hr with rfl | hr
      · exact ⟨by decide, by decide⟩
      · obtain ⟨d, hd, rfl⟩ := List.mem_map.1 hr
        exact ⟨by simp [csvFields], hclean d hd⟩
    refine ⟨_, csvString_eq c cs, hrows, ?_, ?_⟩
    · rw [hrows]
      simp
    · rw [hrows]
      intro row hrow
      rcases List.mem_cons.1 hrow with rfl | hrow
      · rfl
      · obtain ⟨d, _, rfl⟩ := List.mem_map.1 hrow
        rfl

/-- C8, amended, at a concrete input: scenario E, the export of two records. -/
theorem csvString_rows_witness :
    ∃ s, csvString [globexRecord, initechRecord] = some s ∧
      csvRows s =
        ["Name", "Description", "Logo", "Facebook", "LinkedIn", "Twitter", "Instagram",
          "Address", "Phone", "Email"] :: [globexRecord, initechRecord].map csvFields ∧
      (csvRows s).length = [globexRecord, initechRecord].length + 1 ∧
      ∀ row ∈ csvRows s, row.length = 10 :=
  csvString_rows [globexRecord, initechRecord] (by decide) (by decide)

end Scraper

namespace Scraper

/-! ## Routing -/

theorem lit_csv_nonempty (s : String) (h : lower s = lower "csv") : s ≠ "" := by
  intro hs
  subst hs
  revert h
  decide

/-- A path that matches `/api/companies/csv` also matches `/api/companies/:id`. -/
theorem matchPath_id_of_csv (segs : List String) (b : List (String × String))
    (h : matchPath [.lit "api", .lit "companies", .lit "csv"] segs = some b) :
    ∃ s, matchPath [.lit "api", .lit "companies", .param "id"] segs = some [("id", s)] := by
  match segs, h with
  | [s1, s2, s3], h =>
    simp only [matchPath] at h ⊢
    split at h
    · rename_i h1
      split at h
      · rename_i h2
        split at h
        · rename_i h3
          exact ⟨s3, by simp [h1, h2, lit_csv_nonempty s3 h3]⟩
        · exact absurd h (by simp)
      · exact absurd h (by simp)
    · exact absurd h (by simp)
  | [], h => simp [matchPath] at h
  | [_], h =>
    simp only [matchPath] at h
    split at h <;> simp at h
  | [_, _], h =>
    simp only [matchPath] at h
    split at h
    · split at h <;> simp at h
    · simp at h
  | _ :: _ :: _ :: _ :: _, h =>
    simp only [matchPath] at h
    split at h
    · split at h
      · split at h <;> simp at h
      · simp at h
    · simp at h

/-- C10: under first-match routing in registration order, a GET request for
`/api/companies/csv` is served by the handler of `/api/companies/:id`, with
`id = "csv"`; and no request at all, whatever its method and path, is served
by the CSV export handler. -/
theorem exportCsv_never_dispatched :
    dispatch .GET "/api/companies/csv" = some (.companyById, [("id", "csv")]) ∧
      ∀ m path bound, dispatch m path ≠ some (.exportCsv, bound) := by
  refine ⟨by decide, ?_⟩
  intro m path bound h
  unfold dispatch at h
  split at h
  · exact absurd h (by simp)
  · rename_i segs _
    simp only [routes, List.findSome?] at h
    split at h
    · rename_i r hr
      split at hr
      · simp only [Option.map_eq_some'] at hr
        obtain ⟨_, _, rfl⟩ := hr
        simp at h
      · simp at hr
    · split at h
      · rename_i r hr
        split at hr
        · simp only [Option.map_eq_some'] at hr
          obtain ⟨_, _, rfl⟩ := hr
          simp at h
        · simp at hr
      · rename_i hnone3
        split at h
        · rename_i r hr
          split at hr
          · simp only [Option.map_eq_some'] at hr
            obtain ⟨_, _, rfl⟩ := hr
            simp at h
          · simp at hr
        · rename_i hid
          split at h
          · rename_i r hr
            split at hr
            · simp only [Option.map_eq_some'] at hr
              obtain ⟨_, _, rfl⟩ := hr
              simp at h
            · simp at hr
          · split at h
            · rename_i r hr
              split at hr
              · rename_i hm
                simp only [Option.map_eq_some'] at hr
                obtain ⟨b, hb, _⟩ := hr
                obtain ⟨s, hs⟩ := matchPath_id_of_csv segs b hb
                have hm2 : handles ⟨.GET, [.lit "api", .lit "companies", .param "id"],
                    .companyById⟩ m = true := hm
                simp [hm2, hs] at hid
              · simp at hr
            · simp at h

end Scraper
